import Mathlib

/-!
Shallow embedding of the search-lifecycle store
(apps/web search Zustand store, file src/unnamed/part_009).

JavaScript numbers are modelled as rationals (Rat); nullable / possibly
absent fields as Option; a timer handle (NodeJS.Timeout) as a Nat id.
The world carries, besides the store state, the set of timers currently
scheduled by setInterval and a log of issued network requests, so that
claims about "at most one active timer" and "no network call" are
expressible.  Each async store action is split into its synchronous
prefix (everything before the first await) and its resolution step,
parameterised by the outcome of the HTTP request it awaits.
-/

set_option maxHeartbeats 1000000
set_option linter.unusedVariables false

namespace SearchStore

/-- Status union from the source: 'idle' | 'searching' | 'completed' | 'cancelled' | 'error'. -/
inductive SearchStatus
  | idle
  | searching
  | completed
  | cancelled
  | error
deriving DecidableEq, Repr

/-- 'solo' | 'small' | 'medium' | 'enterprise'. -/
inductive CompanySize
  | solo
  | small
  | medium
  | enterprise
deriving DecidableEq, Repr

/-- Mode of a manual override: 'supplement' | 'replace'. -/
inductive OverrideMode
  | supplement
  | replace
deriving DecidableEq, Repr

/-- ManualOverride interface from the source; optional fields are Option. -/
structure ManualOverride where
  mode : OverrideMode
  keywords : Option String
  location : Option String
  companySize : Option CompanySize
  budgetMin : Option Rat
  budgetMax : Option Rat
  industry : Option String
deriving DecidableEq, Repr

/-- Per-source probe sub-status: 'pending' | 'querying' | 'success' | 'failed'. -/
inductive ProbeStatus
  | pending
  | querying
  | success
  | failed
deriving DecidableEq, Repr

/-- SourceStatus interface from the source. -/
structure SourceStatus where
  name : String
  status : ProbeStatus
  leadsFound : Rat
deriving DecidableEq, Repr

/-- IntentScoreBreakdown interface from the source. -/
structure IntentScoreBreakdown where
  source_hierarchy : Rat
  keywords : Rat
  company_size : Rat
  timing_recency : Rat
  budget_signals : Rat
  industry_multipliers : Rat
deriving DecidableEq, Repr

/-- Lead interface from the source. -/
structure Lead where
  id : String
  name : String
  company : String
  email : Option String
  phone : Option String
  intent_score : Rat
  score_breakdown : Option IntentScoreBreakdown
  source : String
  source_url : Option String
  created_at : String
deriving DecidableEq, Repr

/-- SearchResult interface from the source.  sources and leads are Option
because the store reads them defensively (search.sources and search.leads
are each passed through a JS truthiness fallback to the empty list),
so an absent field on the wire is representable. -/
structure SearchResult where
  id : String
  client_profile_id : String
  status : SearchStatus
  progress : Rat
  quality_level : Rat
  sources : Option (List SourceStatus)
  leads : Option (List Lead)
  leads_found : Rat
  error_message : Option String
  started_at : String
  completed_at : Option String
deriving DecidableEq, Repr

/-- SearchState interface from the source: the fields held by the store. -/
structure SearchState where
  currentSearch : Option SearchResult
  status : SearchStatus
  progress : Rat
  sources : List SourceStatus
  leads : List Lead
  error : Option String
  qualityLevel : Rat
  manualOverride : Option ManualOverride
  pollingInterval : Option Nat
  searchHistory : List SearchResult
deriving DecidableEq, Repr

/-- initialState constant from the source. -/
def initialState : SearchState :=
  { currentSearch := none
    status := .idle
    progress := 0
    sources := []
    leads := []
    error := none
    qualityLevel := 7/10
    manualOverride := none
    pollingInterval := none
    searchHistory := [] }

/-- Outcome of one awaited HTTP request for the run-snapshot endpoints.
success carries the parsed SearchResult body; httpError is a non-2xx
response with the optional detail field of its JSON body (none when the
body fails to parse, since the code defaults it to the empty object);
reject is a rejected promise carrying the Error message when the thrown
value is an Error, none otherwise. -/
inductive HttpOutcome
  | success (body : SearchResult)
  | httpError (detail : Option String)
  | reject (message : Option String)
deriving DecidableEq, Repr

/-- Outcome of the history endpoint, whose 2xx body is of shape
with a searches list (read defensively, data.searches may be absent). -/
inductive HistoryOutcome
  | success (searches : Option (List SearchResult))
  | httpError
  | reject (message : Option String)
deriving DecidableEq, Repr

/-- Network requests the store can issue, for the request log. -/
inductive Request
  | createRun (clientProfileId : String) (qualityLevel : Rat)
      (manualOverride : Option ManualOverride)
  | pollRun (searchId : String)
  | cancelRun (searchId : String)
  | historyRun (clientProfileId : String)
deriving DecidableEq, Repr

/-- The world: the store state, the set of live interval timers, a fresh
timer-id counter, and the log of issued requests. -/
structure World where
  state : SearchState
  activeTimers : List Nat
  nextTimer : Nat
  requests : List Request
deriving DecidableEq, Repr

/-- The world at module load: initial store state, no timers, no requests. -/
def initWorld : World :=
  { state := initialState, activeTimers := [], nextTimer := 0, requests := [] }

/-- JS truthiness fallback on a string: v or fallback is fallback exactly
when v is absent or the empty string. -/
def jsOrString (v : Option String) (fallback : String) : String :=
  match v with
  | some s => if s = "" then fallback else s
  | none => fallback

/-- setInterval: allocates a fresh timer id and schedules it. -/
def setIntervalW (w : World) : Nat × World :=
  (w.nextTimer,
   { w with activeTimers := w.nextTimer :: w.activeTimers
            nextTimer := w.nextTimer + 1 })

/-- clearInterval on a handle: the timer stops being scheduled. -/
def clearIntervalW (t : Nat) (w : World) : World :=
  { w with activeTimers := w.activeTimers.erase t }

/-- stopPolling action: if pollingInterval is non-null, clearInterval it
and null the field; otherwise do nothing. -/
def stopPolling (w : World) : World :=
  match w.state.pollingInterval with
  | some t =>
      let w1 := clearIntervalW t w
      { w1 with state := { w1.state with pollingInterval := none } }
  | none => w

/-- startPolling action: clears any existing interval via stopPolling,
then schedules a fresh interval (the 1.5s tick that will call
pollSearchStatus searchId) and stores its handle. -/
def startPolling (searchId : String) (w : World) : World :=
  let w1 := stopPolling w
  let p := setIntervalW w1
  { p.2 with state := { p.2.state with pollingInterval := some p.1 } }

/-- Synchronous prefix of startSearch: stop any existing polling, then
the optimistic set of status searching, progress 0, cleared lists,
cleared error and cleared currentSearch — all before the create request
resolves. -/
def startSearchBegin (w : World) : World :=
  let w1 := stopPolling w
  { w1 with state :=
      { w1.state with
          status := .searching
          progress := 0
          sources := []
          leads := []
          error := none
          currentSearch := none } }

/-- Resolution of startSearch: the create request is issued (logged) and
its outcome applied.  On success the mirror is seeded from the response
and polling starts iff the returned status is searching; on a non-2xx
response the thrown message is detail-or-generic via JS truthiness; on a
rejection it is the Error message when there is one, else the generic. -/
def startSearchEnd (clientProfileId : String) (outcome : HttpOutcome)
    (w : World) : World :=
  let w1 := { w with requests := w.requests ++
      [Request.createRun clientProfileId w.state.qualityLevel
        w.state.manualOverride] }
  match outcome with
  | .success search =>
      let w2 := { w1 with state :=
          { w1.state with
              currentSearch := some search
              status := search.status
              progress := search.progress
              sources := search.sources.getD []
              leads := search.leads.getD [] } }
      if search.status = .searching then startPolling search.id w2 else w2
  | .httpError detail =>
      { w1 with state :=
          { w1.state with
              status := .error
              error := some (jsOrString detail "Failed to start search") } }
  | .reject message =>
      { w1 with state :=
          { w1.state with
              status := .error
              error := some (message.getD "Failed to start search") } }

/-- The whole startSearch action, synchronous prefix then resolution. -/
def startSearch (clientProfileId : String) (outcome : HttpOutcome)
    (w : World) : World :=
  startSearchEnd clientProfileId outcome (startSearchBegin w)

/-- Synchronous prefix of cancelSearch: with no current run it returns
immediately (warning logged only); otherwise it stops polling before the
cancel request is sent. -/
def cancelSearchBegin (w : World) : World :=
  match w.state.currentSearch with
  | none => w
  | some _ => stopPolling w

/-- Resolution of cancelSearch (reached only with a current run): the
cancel request is issued (logged) and its outcome applied.  On success
the mirror is overwritten from the response with status hard-coded to
cancelled; on failure only the error string is set, detail-or-generic
for a non-2xx response, Error-message-or-generic for a rejection. -/
def cancelSearchEnd (outcome : HttpOutcome) (w : World) : World :=
  match w.state.currentSearch with
  | none => w
  | some cs =>
      let w1 := { w with requests := w.requests ++ [Request.cancelRun cs.id] }
      match outcome with
      | .success search =>
          { w1 with state :=
              { w1.state with
                  currentSearch := some search
                  status := .cancelled
                  progress := search.progress
                  sources := search.sources.getD []
                  leads := search.leads.getD [] } }
      | .httpError detail =>
          { w1 with state :=
              { w1.state with
                  error := some (jsOrString detail "Failed to cancel search") } }
      | .reject message =>
          { w1 with state :=
              { w1.state with
                  error := some (message.getD "Failed to cancel search") } }

/-- The whole cancelSearch action. -/
def cancelSearch (outcome : HttpOutcome) (w : World) : World :=
  cancelSearchEnd outcome (cancelSearchBegin w)

/-- pollSearchStatus: issues the status request (logged); on success the
mirror is replaced wholesale from the response (error from the body
error_message field) and polling stops iff the returned status is not
searching; any failure is logged only and changes nothing. -/
def pollSearchStatus (searchId : String) (outcome : HttpOutcome)
    (w : World) : World :=
  let w1 := { w with requests := w.requests ++ [Request.pollRun searchId] }
  match outcome with
  | .success search =>
      let w2 := { w1 with state :=
          { w1.state with
              currentSearch := some search
              status := search.status
              progress := search.progress
              sources := search.sources.getD []
              leads := search.leads.getD []
              error := search.error_message } }
      if search.status ≠ .searching then stopPolling w2 else w2
  | .httpError _ => w1
  | .reject _ => w1

/-- setQualityLevel: clamps to the unit interval before storing. -/
def setQualityLevel (level : Rat) (w : World) : World :=
  let clampedLevel := max 0 (min 1 level)
  { w with state := { w.state with qualityLevel := clampedLevel } }

/-- setManualOverride: stored verbatim. -/
def setManualOverride (override : Option ManualOverride) (w : World) : World :=
  { w with state := { w.state with manualOverride := override } }

/-- setError: stored verbatim. -/
def setError (error : Option String) (w : World) : World :=
  { w with state := { w.state with error := error } }

/-- fetchSearchHistory: issues the history request (logged); on success
stores data.searches (defensively defaulted to the empty list); on any
failure only logs. -/
def fetchSearchHistory (clientProfileId : String) (outcome : HistoryOutcome)
    (w : World) : World :=
  let w1 := { w with requests := w.requests ++
      [Request.historyRun clientProfileId] }
  match outcome with
  | .success searches =>
      { w1 with state := { w1.state with searchHistory := searches.getD [] } }
  | .httpError => w1
  | .reject _ => w1

/-- reset: stops polling, then sets the complete initialState object
(every field of the store, since initialState lists them all). -/
def reset (w : World) : World :=
  let w1 := stopPolling w
  { w1 with state := initialState }

/-- One observable step of the store: each store action, with async
actions split at their await point so that intermediate instants are
steps of their own. -/
inductive Op
  | startSearchBeginStep
  | startSearchEndStep (clientProfileId : String) (outcome : HttpOutcome)
  | cancelSearchBeginStep
  | cancelSearchEndStep (outcome : HttpOutcome)
  | pollStep (searchId : String) (outcome : HttpOutcome)
  | setQualityLevelStep (level : Rat)
  | setManualOverrideStep (override : Option ManualOverride)
  | setErrorStep (error : Option String)
  | startPollingStep (searchId : String)
  | stopPollingStep
  | fetchHistoryStep (clientProfileId : String) (outcome : HistoryOutcome)
  | resetStep
deriving Repr

/-- Interpreter for one step. -/
def stepOp (w : World) (op : Op) : World :=
  match op with
  | .startSearchBeginStep => startSearchBegin w
  | .startSearchEndStep cid outcome => startSearchEnd cid outcome w
  | .cancelSearchBeginStep => cancelSearchBegin w
  | .cancelSearchEndStep outcome => cancelSearchEnd outcome w
  | .pollStep sid outcome => pollSearchStatus sid outcome w
  | .setQualityLevelStep level => setQualityLevel level w
  | .setManualOverrideStep override => setManualOverride override w
  | .setErrorStep e => setError e w
  | .startPollingStep sid => startPolling sid w
  | .stopPollingStep => stopPolling w
  | .fetchHistoryStep cid outcome => fetchSearchHistory cid outcome w
  | .resetStep => reset w

/-- Run a sequence of steps from the initial world. -/
def runOps (ops : List Op) : World :=
  ops.foldl stepOp initWorld

/-- The timers a pollingInterval field accounts for: none when null,
exactly the stored handle otherwise. -/
def timersFor : Option Nat → List Nat
  | none => []
  | some t => [t]

/-- Timer invariant: the live timers are exactly the ones the
pollingInterval field accounts for (so at most one, and the field is
null exactly when no timer is live). -/
def TimerInv (w : World) : Prop :=
  w.activeTimers = timersFor w.state.pollingInterval

/-- A concrete in-flight run snapshot, for witnesses. -/
def sampleRun : SearchResult :=
  { id := "s1", client_profile_id := "p1", status := .searching
    progress := 1/4, quality_level := 7/10, sources := some []
    leads := some [], leads_found := 0, error_message := none
    started_at := "t0", completed_at := none }

/-- A concrete terminal run snapshot (status completed), for witnesses. -/
def doneRun : SearchResult :=
  { id := "s1", client_profile_id := "p1", status := .completed
    progress := 1, quality_level := 7/10, sources := some []
    leads := some [], leads_found := 0, error_message := none
    started_at := "t0", completed_at := some "t1" }

/-- A concrete world mid-search: a current run, status searching, one
live polling timer whose handle is stored in pollingInterval. -/
def wActive : World :=
  { state := { initialState with
      currentSearch := some sampleRun
      status := .searching
      progress := 1/4
      pollingInterval := some 0 }
    activeTimers := [0], nextTimer := 1, requests := [] }

end SearchStore

namespace SearchStore

/-- stopPolling acts on the state only by nulling pollingInterval. -/
theorem stopPolling_state (w : World) :
    (stopPolling w).state = { w.state with pollingInterval := none } := by
  unfold stopPolling
  cases h : w.state.pollingInterval with
  | none =>
      show w.state = { w.state with pollingInterval := none }
      rw [← h]
  | some t => rfl

/-- stopPolling leaves the request log alone. -/
theorem stopPolling_requests (w : World) :
    (stopPolling w).requests = w.requests := by
  unfold stopPolling
  cases h : w.state.pollingInterval <;> rfl

/-- Transport of the timer invariant along worlds agreeing on timers and
the pollingInterval field. -/
theorem timerInv_of_eq (w w' : World) (h : TimerInv w)
    (ht : w'.activeTimers = w.activeTimers)
    (hp : w'.state.pollingInterval = w.state.pollingInterval) :
    TimerInv w' := by
  unfold TimerInv at h ⊢
  rw [ht, hp]
  exact h

/-- stopPolling preserves the timer invariant. -/
theorem timerInv_stopPolling (w : World) (h : TimerInv w) :
    TimerInv (stopPolling w) := by
  unfold TimerInv at h ⊢
  unfold stopPolling
  cases hp : w.state.pollingInterval with
  | none => rw [hp] at h; simpa [timersFor, hp] using h
  | some t =>
      rw [hp] at h
      simp only [timersFor] at h
      simp [clearIntervalW, h, timersFor]

/-- Under the invariant, stopPolling leaves no live timer. -/
theorem stopPolling_activeTimers (w : World) (h : TimerInv w) :
    (stopPolling w).activeTimers = [] := by
  unfold TimerInv at h
  unfold stopPolling
  cases hp : w.state.pollingInterval with
  | none => rw [hp] at h; simpa [timersFor] using h
  | some t =>
      rw [hp] at h
      simp only [timersFor] at h
      simp [clearIntervalW, h]

/-- startPolling preserves the timer invariant. -/
theorem timerInv_startPolling (sid : String) (w : World) (h : TimerInv w) :
    TimerInv (startPolling sid w) := by
  have h1 : (stopPolling w).activeTimers = [] := stopPolling_activeTimers w h
  unfold TimerInv startPolling setIntervalW
  simp [timersFor, h1]

/-- Every observable step preserves the timer invariant. -/
theorem timerInv_stepOp (w : World) (op : Op) (h : TimerInv w) :
    TimerInv (stepOp w op) := by
  cases op with
  | startSearchBeginStep =>
      exact timerInv_of_eq (stopPolling w) _ (timerInv_stopPolling w h) rfl rfl
  | startSearchEndStep cid outcome =>
      cases outcome with
      | success s =>
          show TimerInv (startSearchEnd cid (.success s) w)
          simp only [startSearchEnd]
          split_ifs with hs
          · exact timerInv_startPolling _ _ (timerInv_of_eq w _ h rfl rfl)
          · exact timerInv_of_eq w _ h rfl rfl
      | httpError d => exact timerInv_of_eq w _ h rfl rfl
      | reject m => exact timerInv_of_eq w _ h rfl rfl
  | cancelSearchBeginStep =>
      show TimerInv (cancelSearchBegin w)
      unfold cancelSearchBegin
      cases hc : w.state.currentSearch with
      | none => exact h
      | some cs => exact timerInv_stopPolling w h
  | cancelSearchEndStep outcome =>
      show TimerInv (cancelSearchEnd outcome w)
      unfold cancelSearchEnd
      cases hc : w.state.currentSearch with
      | none => exact h
      | some cs =>
          cases outcome with
          | success s => exact timerInv_of_eq w _ h rfl rfl
          | httpError d => exact timerInv_of_eq w _ h rfl rfl
          | reject m => exact timerInv_of_eq w _ h rfl rfl
  | pollStep sid outcome =>
      cases outcome with
      | success s =>
          show TimerInv (pollSearchStatus sid (.success s) w)
          simp only [pollSearchStatus]
          split_ifs with hs
          · exact timerInv_stopPolling _ (timerInv_of_eq w _ h rfl rfl)
          · exact timerInv_of_eq w _ h rfl rfl
      | httpError d => exact timerInv_of_eq w _ h rfl rfl
      | reject m => exact timerInv_of_eq w _ h rfl rfl
  | setQualityLevelStep level => exact timerInv_of_eq w _ h rfl rfl
  | setManualOverrideStep o => exact timerInv_of_eq w _ h rfl rfl
  | setErrorStep e => exact timerInv_of_eq w _ h rfl rfl
  | startPollingStep sid => exact timerInv_startPolling sid w h
  | stopPollingStep => exact timerInv_stopPolling w h
  | fetchHistoryStep cid outcome =>
      cases outcome with
      | success s => exact timerInv_of_eq w _ h rfl rfl
      | httpError => exact timerInv_of_eq w _ h rfl rfl
      | reject m => exact timerInv_of_eq w _ h rfl rfl
  | resetStep =>
      have h1 := stopPolling_activeTimers w h
      show TimerInv (reset w)
      unfold TimerInv reset
      simp [initialState, timersFor, h1]

/-- The timer invariant holds along any run from any invariant world. -/
theorem timerInv_foldl (ops : List Op) (w : World) (h : TimerInv w) :
    TimerInv (ops.foldl stepOp w) := by
  induction ops generalizing w with
  | nil => exact h
  | cons op rest ih => exact ih (stepOp w op) (timerInv_stepOp w op h)

/-- The initial world satisfies the timer invariant. -/
theorem timerInv_initWorld : TimerInv initWorld := rfl

end SearchStore

namespace SearchStore

/-- The state after a successful poll, as one record: the mirror is the
response snapshot and pollingInterval is nulled exactly when the returned
status is not searching. -/
theorem pollSearchStatus_success_state (w : World) (sid : String)
    (search : SearchResult) :
    (pollSearchStatus sid (.success search) w).state =
      { w.state with
          currentSearch := some search
          status := search.status
          progress := search.progress
          sources := search.sources.getD []
          leads := search.leads.getD []
          error := search.error_message
          pollingInterval :=
            if search.status ≠ .searching then none
            else w.state.pollingInterval } := by
  simp only [pollSearchStatus]
  split_ifs with hs
  · rw [stopPolling_state]
  · rfl

/-- With a current run, the synchronous prefix of cancelSearch is exactly
stopPolling. -/
theorem cancelSearchBegin_of_some (w : World) (cs : SearchResult)
    (hcs : w.state.currentSearch = some cs) :
    cancelSearchBegin w = stopPolling w := by
  unfold cancelSearchBegin
  rw [hcs]

/-- stopPolling does not change the current run. -/
theorem stopPolling_currentSearch (w : World) :
    (stopPolling w).state.currentSearch = w.state.currentSearch := by
  rw [stopPolling_state]

/-- Claim C1: when a current run exists, a successful cancelSearch forces
status cancelled regardless of the status field in the response body, and
overwrites currentSearch, progress, sources and leads from the response. -/
theorem cancel_success_forces_cancelled (w : World) (cs search : SearchResult)
    (hcs : w.state.currentSearch = some cs) :
    (cancelSearch (.success search) w).state.status = .cancelled ∧
    (cancelSearch (.success search) w).state.currentSearch = some search ∧
    (cancelSearch (.success search) w).state.progress = search.progress ∧
    (cancelSearch (.success search) w).state.sources = search.sources.getD [] ∧
    (cancelSearch (.success search) w).state.leads = search.leads.getD [] := by
  have hsc : (stopPolling w).state.currentSearch = some cs := by
    rw [stopPolling_currentSearch]; exact hcs
  unfold cancelSearch
  rw [cancelSearchBegin_of_some w cs hcs]
  simp [cancelSearchEnd, hsc]

/-- Witness for C1 at a concrete mid-search world: the cancel response
carries status completed, yet the store reports cancelled. -/
theorem cancel_success_forces_cancelled_witness :
    wActive.state.currentSearch = some sampleRun ∧
    doneRun.status = .completed ∧
    (cancelSearch (.success doneRun) wActive).state.status = .cancelled :=
  ⟨rfl, rfl, (cancel_success_forces_cancelled wActive sampleRun doneRun rfl).1⟩

end SearchStore

namespace SearchStore

/-- Claim C2: a successful poll replaces the mirror wholesale from the
response (currentSearch, status, progress, the full sources and leads
lists, and the surfaced error), and the polling timer is cleared exactly
when the returned status is not searching. -/
theorem poll_success_replaces_and_stops (w : World) (sid : String)
    (search : SearchResult) (t : Nat)
    (hpi : w.state.pollingInterval = some t) (hinv : TimerInv w) :
    (pollSearchStatus sid (.success search) w).state.currentSearch
        = some search ∧
    (pollSearchStatus sid (.success search) w).state.status = search.status ∧
    (pollSearchStatus sid (.success search) w).state.progress
        = search.progress ∧
    (pollSearchStatus sid (.success search) w).state.sources
        = search.sources.getD [] ∧
    (pollSearchStatus sid (.success search) w).state.leads
        = search.leads.getD [] ∧
    (pollSearchStatus sid (.success search) w).state.error
        = search.error_message ∧
    ((pollSearchStatus sid (.success search) w).state.pollingInterval = none
        ↔ search.status ≠ .searching) ∧
    ((pollSearchStatus sid (.success search) w).activeTimers = []
        ↔ search.status ≠ .searching) := by
  have hst := pollSearchStatus_success_state w sid search
  have htimers : (pollSearchStatus sid (.success search) w).activeTimers
      = if search.status ≠ .searching then [] else w.activeTimers := by
    simp only [pollSearchStatus]
    split_ifs with hs
    · exact stopPolling_activeTimers _ (timerInv_of_eq w _ hinv rfl rfl)
    · rfl
  refine ⟨by rw [hst], by rw [hst], by rw [hst], by rw [hst], by rw [hst],
    by rw [hst], ?_, ?_⟩
  · rw [hst]
    by_cases hs : search.status = SearchStatus.searching <;> simp [hs, hpi]
  · rw [htimers]
    unfold TimerInv at hinv
    rw [hinv, hpi]
    by_cases hs : search.status = SearchStatus.searching <;>
      simp [hs, timersFor]

/-- Witness for C2 at the concrete mid-search world: a poll response with
terminal status clears the timer and replaces the mirror. -/
theorem poll_success_replaces_and_stops_witness :
    wActive.state.pollingInterval = some 0 ∧ TimerInv wActive ∧
    (pollSearchStatus "s1" (.success doneRun) wActive).state.currentSearch
      = some doneRun :=
  ⟨rfl, rfl,
    (poll_success_replaces_and_stops wActive "s1" doneRun 0 rfl rfl).1⟩

/-- Claim C3: along any sequence of store steps from the initial world,
at most one polling timer is live at any instant, and the
pollingInterval field is null exactly when no timer is live. -/
theorem single_active_timer (ops : List Op) :
    (runOps ops).activeTimers.length ≤ 1 ∧
    ((runOps ops).state.pollingInterval = none
      ↔ (runOps ops).activeTimers = []) := by
  have h : TimerInv (runOps ops) :=
    timerInv_foldl ops initWorld timerInv_initWorld
  unfold TimerInv at h
  constructor
  · rw [h]
    cases (runOps ops).state.pollingInterval <;> simp [timersFor]
  · rw [h]
    cases hp : (runOps ops).state.pollingInterval <;> simp [timersFor, hp]

/-- Claim C4: a failed poll (non-2xx response or rejection) changes no
store field and stops no timer; only the request log records the issued
poll. -/
theorem poll_failure_changes_nothing (w : World) (sid : String)
    (d m : Option String) :
    ((pollSearchStatus sid (.httpError d) w).state = w.state ∧
     (pollSearchStatus sid (.httpError d) w).activeTimers = w.activeTimers) ∧
    ((pollSearchStatus sid (.reject m) w).state = w.state ∧
     (pollSearchStatus sid (.reject m) w).activeTimers = w.activeTimers) :=
  ⟨⟨rfl, rfl⟩, ⟨rfl, rfl⟩⟩

end SearchStore

namespace SearchStore

/-- Counterexample for C5 as stated: on a rejected create request whose
Error carries the message "connection lost", the stored error string is
that transport message, not the detail field (absent) and not the generic
"Failed to start search" the claim prescribes in its absence. -/
theorem start_failure_message_counterexample :
    (startSearch "p1" (.reject (some "connection lost")) initWorld).state.status
      = .error ∧
    (startSearch "p1" (.reject (some "connection lost")) initWorld).state.error
      = some "connection lost" ∧
    (some "connection lost" : Option String) ≠ some "Failed to start search" :=
  ⟨rfl, rfl, by decide⟩

/-- Claim C5 as amended: when the create request fails, status becomes
error and no polling is started; the stored error string is, for a
non-2xx response, the detail field when present and non-empty and the
generic "Failed to start search" otherwise, and, for a rejection, the
rejection's Error message when there is one and the generic otherwise. -/
theorem start_failure_sets_error (w : World) (cid : String)
    (d m : Option String) (hinv : TimerInv w) :
    ((startSearch cid (.httpError d) w).state.status = .error ∧
     (startSearch cid (.httpError d) w).state.error
        = some (jsOrString d "Failed to start search") ∧
     (startSearch cid (.httpError d) w).state.pollingInterval = none ∧
     (startSearch cid (.httpError d) w).activeTimers = []) ∧
    ((startSearch cid (.reject m) w).state.status = .error ∧
     (startSearch cid (.reject m) w).state.error
        = some (m.getD "Failed to start search") ∧
     (startSearch cid (.reject m) w).state.pollingInterval = none ∧
     (startSearch cid (.reject m) w).activeTimers = []) := by
  have hb : (stopPolling w).state.pollingInterval = none := by
    rw [stopPolling_state]
  have ht : (stopPolling w).activeTimers = [] :=
    stopPolling_activeTimers w hinv
  exact ⟨⟨rfl, rfl, hb, ht⟩, ⟨rfl, rfl, hb, ht⟩⟩

/-- Witness for C5's amended theorem at the initial world: a non-2xx
response with detail "quota exceeded" surfaces that detail. -/
theorem start_failure_sets_error_witness :
    TimerInv initWorld ∧
    (startSearch "p1" (.httpError (some "quota exceeded")) initWorld).state.error
      = some "quota exceeded" :=
  ⟨rfl,
    (start_failure_sets_error initWorld "p1" (some "quota exceeded")
      none rfl).1.2.1⟩

/-- Claim C6: setQualityLevel stores exactly the clamp of its argument to
the unit interval and changes nothing else; 14/10 stores 1 and -2/10
stores 0. -/
theorem setQualityLevel_clamps (w : World) (x : Rat) :
    (setQualityLevel x w).state.qualityLevel = max 0 (min 1 x) ∧
    setQualityLevel x w =
      { w with state := { w.state with qualityLevel := max 0 (min 1 x) } } ∧
    (setQualityLevel (14/10) w).state.qualityLevel = 1 ∧
    (setQualityLevel (-2/10) w).state.qualityLevel = 0 := by
  refine ⟨rfl, rfl, ?_, ?_⟩
  · show max (0 : Rat) (min 1 (14/10)) = 1
    norm_num
  · show max (0 : Rat) (min 1 (-2/10)) = 0
    norm_num

/-- Claim C7: cancelSearch with no current run changes nothing at all:
no store field, no timer, and no entry in the request log (so no network
call is made), whatever the would-be outcome. -/
theorem cancel_without_run_noop (w : World) (outcome : HttpOutcome)
    (h : w.state.currentSearch = none) :
    cancelSearch outcome w = w := by
  simp [cancelSearch, cancelSearchBegin, cancelSearchEnd, h]

/-- Witness for C7 at the initial world, which has no current run. -/
theorem cancel_without_run_noop_witness :
    initWorld.state.currentSearch = none ∧
    cancelSearch (.reject none) initWorld = initWorld :=
  ⟨rfl, cancel_without_run_noop initWorld (.reject none) rfl⟩

end SearchStore

namespace SearchStore

/-- Counterexample for C8 as stated: when the cancel request rejects with
an Error carrying "network down", the stored error string is that
transport message — neither a detail field (there is no response body)
nor the generic "Failed to cancel search" the claim allows. -/
theorem cancel_failure_message_counterexample :
    (cancelSearch (.reject (some "network down")) wActive).state.error
      = some "network down" ∧
    (some "network down" : Option String) ≠ some "Failed to cancel search" :=
  ⟨rfl, by decide⟩

/-- Claim C8 as amended: when the cancel request fails, only the error
string is set — for a non-2xx response the detail field when present and
non-empty else the generic "Failed to cancel search", for a rejection the
rejection's Error message when there is one else the generic — while
status, currentSearch, progress, sources and leads keep their last known
values, and the polling timer was already cleared before the request. -/
theorem cancel_failure_keeps_run (w : World) (cs : SearchResult)
    (d m : Option String) (hcs : w.state.currentSearch = some cs)
    (hinv : TimerInv w) :
    ((cancelSearch (.httpError d) w).state.error
        = some (jsOrString d "Failed to cancel search") ∧
     (cancelSearch (.httpError d) w).state.status = w.state.status ∧
     (cancelSearch (.httpError d) w).state.currentSearch
        = w.state.currentSearch ∧
     (cancelSearch (.httpError d) w).state.progress = w.state.progress ∧
     (cancelSearch (.httpError d) w).state.sources = w.state.sources ∧
     (cancelSearch (.httpError d) w).state.leads = w.state.leads ∧
     (cancelSearch (.httpError d) w).state.pollingInterval = none ∧
     (cancelSearch (.httpError d) w).activeTimers = []) ∧
    ((cancelSearch (.reject m) w).state.error
        = some (m.getD "Failed to cancel search") ∧
     (cancelSearch (.reject m) w).state.status = w.state.status ∧
     (cancelSearch (.reject m) w).state.currentSearch
        = w.state.currentSearch ∧
     (cancelSearch (.reject m) w).state.progress = w.state.progress ∧
     (cancelSearch (.reject m) w).state.sources = w.state.sources ∧
     (cancelSearch (.reject m) w).state.leads = w.state.leads ∧
     (cancelSearch (.reject m) w).state.pollingInterval = none ∧
     (cancelSearch (.reject m) w).activeTimers = []) := by
  have hsc : (stopPolling w).state.currentSearch = some cs := by
    rw [stopPolling_currentSearch]; exact hcs
  have hss : (stopPolling w).state = { w.state with pollingInterval := none } :=
    stopPolling_state w
  have ht : (stopPolling w).activeTimers = [] :=
    stopPolling_activeTimers w hinv
  have he : ∀ outcome, cancelSearch outcome w
      = cancelSearchEnd outcome (stopPolling w) := by
    intro outcome
    unfold cancelSearch
    rw [cancelSearchBegin_of_some w cs hcs]
  constructor
  · rw [he (.httpError d)]
    simp [cancelSearchEnd, hsc, hss, hcs, ht]
  · rw [he (.reject m)]
    simp [cancelSearchEnd, hsc, hss, hcs, ht]

/-- Witness for C8's amended theorem at the concrete mid-search world,
with an empty detail string falling back to the generic message. -/
theorem cancel_failure_keeps_run_witness :
    wActive.state.currentSearch = some sampleRun ∧ TimerInv wActive ∧
    (cancelSearch (.httpError (some "")) wActive).state.error
      = some "Failed to cancel search" :=
  ⟨rfl, rfl,
    (cancel_failure_keeps_run wActive sampleRun (some "") none rfl rfl).1.1⟩

end SearchStore

namespace SearchStore

/-- Claim C9: the synchronous prefix of startSearch — run before the
create request is issued (the request log is still untouched at that
instant) — already sets status searching, progress 0, and clears sources,
leads, error and currentSearch; consequently a later create failure ends
in an error state whose leads and sources are empty and whose
currentSearch is null. -/
theorem start_optimistic_prefix (w : World) (cid : String)
    (d m : Option String) :
    ((startSearchBegin w).state.status = .searching ∧
     (startSearchBegin w).state.progress = 0 ∧
     (startSearchBegin w).state.sources = [] ∧
     (startSearchBegin w).state.leads = [] ∧
     (startSearchBegin w).state.error = none ∧
     (startSearchBegin w).state.currentSearch = none ∧
     (startSearchBegin w).requests = w.requests) ∧
    ((startSearch cid (.httpError d) w).state.status = .error ∧
     (startSearch cid (.httpError d) w).state.currentSearch = none ∧
     (startSearch cid (.httpError d) w).state.leads = [] ∧
     (startSearch cid (.httpError d) w).state.sources = []) ∧
    ((startSearch cid (.reject m) w).state.status = .error ∧
     (startSearch cid (.reject m) w).state.currentSearch = none ∧
     (startSearch cid (.reject m) w).state.leads = [] ∧
     (startSearch cid (.reject m) w).state.sources = []) := by
  refine ⟨⟨rfl, rfl, rfl, rfl, rfl, rfl, ?_⟩,
    ⟨rfl, rfl, rfl, rfl⟩, ⟨rfl, rfl, rfl, rfl⟩⟩
  show (stopPolling w).requests = w.requests
  exact stopPolling_requests w

/-- Claim C10: reset restores the complete store state to initialState —
including qualityLevel back to the default 7/10, manualOverride to null
and searchHistory to empty — and stops any live polling timer. -/
theorem reset_restores_initial (w : World) (hinv : TimerInv w) :
    (reset w).state = initialState ∧
    (reset w).activeTimers = [] ∧
    (reset w).state.qualityLevel = 7/10 ∧
    (reset w).state.manualOverride = none ∧
    (reset w).state.searchHistory = [] ∧
    (reset w).state.pollingInterval = none := by
  refine ⟨rfl, ?_, rfl, rfl, rfl, rfl⟩
  show (stopPolling w).activeTimers = []
  exact stopPolling_activeTimers w hinv

/-- Witness for C10 at the concrete mid-search world after moving the
quality level off its default, with a live timer: reset returns the whole
store to initialState and leaves no timer. -/
theorem reset_restores_initial_witness :
    TimerInv (setQualityLevel (1/2) wActive) ∧
    (reset (setQualityLevel (1/2) wActive)).state = initialState ∧
    (reset (setQualityLevel (1/2) wActive)).activeTimers = [] :=
  ⟨rfl, (reset_restores_initial (setQualityLevel (1/2) wActive) rfl).1,
    (reset_restores_initial (setQualityLevel (1/2) wActive) rfl).2.1⟩

end SearchStore
